import Mathlib

/-!
Shallow embedding of the dob-decoder-standalone-server pipeline
(`src/decoder.rs`, `src/server.rs`) and proofs about its behaviour.

Rust strings are modelled as lists of characters, byte buffers as lists of
`UInt8`.  External collaborators (the ledger RPC, the RISC-V executor, the
serde_json parser/serializer and the blake2b hash) are modelled as abstract
functions collected in an `Env` record; the repository's own control flow is
translated literally from the source.  Filesystem caches are modelled as
partial maps from file names to file contents.
-/

namespace DobDecoder

/-- Rust `String` / `&str`, modelled as its character sequence. -/
abbrev Str := List Char

/-- Rust `Vec<u8>` / `&[u8]`. -/
abbrev Bytes := List UInt8

/-- A 32-byte hash (`H256` in the source); modelled as its byte sequence. -/
abbrev Hash256 := Bytes

/-- The error enum of `src/types.rs`, reconstructed from its uses in
`src/decoder.rs` and `src/server.rs`. -/
inductive Error where
  | DecoderNotFound
  | SporeIdNotFound
  | SporeDataUncompatible
  | SporeDataContentTypeUncompatible
  | DOBVersionUnexpected
  | ClusterIdNotSet
  | ClusterIdNotFound
  | ClusterDataUncompatible
  | DOBMetadataUnexpected
  | DOBContentUnexpected
  | NativeDecoderNotFound
  | DecoderIdNotFound
  | DecoderBinaryHashInvalid
  | DecoderBinaryPathInvalid
  | DecoderBinaryNotFoundInCell
  | NoOutputCellInTransaction
  | FetchLiveCellsError
  | FetchTransactionError
  | DecoderExecutionError
  | DecoderExecutionInternalError
  | DecoderOutputInvalid
  | HexedSporeIdParseError
  | SporeIdLengthInvalid
  | DOBRenderCacheNotFound
  | DOBRenderCacheModified
  deriving DecidableEq, Inhabited

/-- serde_json `Value`, restricted to integer numbers (floating point plays no
role in any property considered here). -/
inductive Json where
  | null
  | bool (b : Bool)
  | num (n : Int)
  | str (s : Str)
  | arr (elems : List Json)
  | obj (fields : List (Str × Json))

/-- `DecoderLocationType` from `src/types.rs`: the two decoder-addressing
strategies. -/
inductive DecoderLocationType where
  | codeHash
  | typeId
  deriving DecidableEq, Inhabited

/-- `DOBDecoderFormat`: `{ location, hash }`. -/
structure DOBDecoderFormat where
  location : DecoderLocationType
  hash : Hash256

/-- `DOBClusterFormat`: `{ ver, decoder, pattern }`. -/
structure DOBClusterFormat where
  ver : Option Nat
  decoder : DOBDecoderFormat
  pattern : Json

/-- `ClusterDescriptionField`: `{ description, dob }`. -/
structure ClusterDescriptionField where
  description : Str
  dob : DOBClusterFormat

/-- One entry of the static `onchain_decoder_deployment` table in `Settings`. -/
structure DecoderDeployment where
  code_hash : Hash256
  tx_hash : Hash256
  out_index : Nat

/-- The decoder-binary cache (`decoders_cache_directory`): a partial map from
file name to binary content. -/
abbrev DecoderCache := Str → Option Bytes

/-- The render cache (`dobs_cache_directory`): a partial map from file name to
textual file content. -/
abbrev RenderStore := Str → Option Str

/-- Overwrite one entry of the decoder-binary cache (`std::fs::write`). -/
def updateCache (cache : DecoderCache) (key : Str) (value : Bytes) : DecoderCache :=
  fun k => if k = key then some value else cache k

/-- Overwrite one entry of the render cache (`std::fs::write`). -/
def updateStore (store : RenderStore) (key : Str) (value : Str) : RenderStore :=
  fun k => if k = key then some value else store k

/-- Lowercase hex digit for `n % 16` (as emitted by the `hex` crate). -/
def hexChar (n : Nat) : Char :=
  ("0123456789abcdef".toList).getD (n % 16) '0'

/-- `hex::encode`: lowercase hex of a byte sequence. -/
def hexEncode (bs : Bytes) : Str :=
  (bs.map fun b => [hexChar (b.toNat / 16), hexChar (b.toNat % 16)]).flatten

/-- Value of one hex digit, upper or lower case (as accepted by
`hex::decode`). -/
def hexDigitVal (c : Char) : Option Nat :=
  if '0' ≤ c ∧ c ≤ '9' then some (c.toNat - 48)
  else if 'a' ≤ c ∧ c ≤ 'f' then some (c.toNat - 87)
  else if 'A' ≤ c ∧ c ≤ 'F' then some (c.toNat - 55)
  else none

/-- `hex::decode`: fails on odd length or any non-hex character. -/
def hexDecode : Str → Option Bytes
  | [] => some []
  | [_] => none
  | c1 :: c2 :: rest =>
    match hexDigitVal c1, hexDigitVal c2, hexDecode rest with
    | some hi, some lo, some bs => some (UInt8.ofNat (hi * 16 + lo) :: bs)
    | _, _, _ => none

/-- `str::strip_prefix("0x")` composed with `unwrap_or(identity)`, as in
`decode_dob`. -/
def strip0x : Str → Str
  | '0' :: 'x' :: rest => rest
  | s => s

/-- serde_json `Map::get` on our association-list model of a JSON object. -/
def jsonLookup (fields : List (Str × Json)) (key : Str) : Option Json :=
  (fields.find? fun p => decide (p.1 = key)).map Prod.snd

/-- Outcome of `decode_spore_data`: the Rust function can panic (index out of
bounds), return `Err`, or return `Ok((content, dna))`. -/
inductive SporeDecodeResult where
  | panicked
  | errored (e : Error)
  | ok (content : Json) (dna : Str)

/-- `decode_spore_data` from `src/decoder.rs`.  The serde_json byte parser is
external, so it is passed as a function argument `parse`; everything else is a
literal translation.  `spore_data[0]` on an empty slice is a Rust panic, hence
the `panicked` case. -/
def decode_spore_data (parse : Bytes → Option Json) (spore_data : Bytes) :
    SporeDecodeResult :=
  match spore_data with
  | [] => .panicked
  | b :: rest =>
    if b = 0 then
      .ok (.str (hexEncode rest)) (hexEncode rest)
    else
      match parse (b :: rest) with
      | none => .errored .DOBContentUnexpected
      | some value =>
        let dnaVal : Option Json :=
          match value with
          | .str _ => some value
          | .arr elems => elems.head?
          | .obj fields => jsonLookup fields ("dna".toList)
          | _ => none
        match dnaVal with
        | none => .errored .DOBContentUnexpected
        | some (.str s) => .ok value s
        | some _ => .errored .DOBContentUnexpected

/-- The external collaborators of the pipeline, modelled as abstract
functions: the static deployment table and ledger RPC fetches used by
`decode_dna`, the blake2b-256 digest, the RISC-V executor
(`vm::execute_riscv_binary`, `none` = invocation failure), the serde_json
string parser and serializer, the combined `fetch_decode_ingredients` RPC
step, and the success of the two `std::fs::write` calls. -/
structure Env where
  deployments : List DecoderDeployment
  fetchDirectly : Hash256 → Nat → Except Error Bytes
  fetchByTypeId : Hash256 → Except Error Bytes
  blake2b256 : Bytes → Hash256
  executeRiscv : Str → Str → Str → Option (Int × List Str)
  parseStr : Str → Option Json
  toJsonString : Json → Str
  fetchIngredients : Bytes → Except Error ((Json × Str) × ClusterDescriptionField)
  decoderWriteOk : Bool
  renderWriteOk : Bool

/-- The decoder-binary cache file name derived from a `DecoderRef`:
`code_hash_{hex}.bin` or `type_id_{hex}.bin` as formatted in `decode_dna`. -/
def decoderCacheKey (decoder : DOBDecoderFormat) : Str :=
  match decoder.location with
  | .codeHash => ("code_hash_".toList) ++ hexEncode decoder.hash ++ (".bin".toList)
  | .typeId => ("type_id_".toList) ++ hexEncode decoder.hash ++ (".bin".toList)

/-- Result of the decoder-resolution phase of `decode_dna` (and of
`decode_dna` as a whole, whose `result` is then the render string): the
`Result` value, the decoder-binary cache afterwards, and instrumentation
counting ledger fetches and blake2b digest verifications performed. -/
structure ResolveOutcome where
  result : Except Error Str
  cache : DecoderCache
  fetches : Nat
  verifies : Nat

/-- The decoder-resolution state machine at the top of `decode_dna`
(`src/decoder.rs` lines 55-107): cache check, then the CodeHash path
(deployment-table lookup, direct fetch, blake2b digest gate, cache write) or
the TypeId path (type-id cell fetch, cache write). -/
def resolveDecoder (env : Env) (cache : DecoderCache) (decoder : DOBDecoderFormat) :
    ResolveOutcome :=
  let path := decoderCacheKey decoder
  match decoder.location with
  | .codeHash =>
    match cache path with
    | some _ => ⟨.ok path, cache, 0, 0⟩
    | none =>
      match env.deployments.find? (fun d => decide (d.code_hash = decoder.hash)) with
      | none => ⟨.error .NativeDecoderNotFound, cache, 0, 0⟩
      | some deployment =>
        match env.fetchDirectly deployment.tx_hash deployment.out_index with
        | .error e => ⟨.error e, cache, 1, 0⟩
        | .ok bytes =>
          if env.blake2b256 bytes ≠ decoder.hash then
            ⟨.error .DecoderBinaryHashInvalid, cache, 1, 1⟩
          else if env.decoderWriteOk then
            ⟨.ok path, updateCache cache path bytes, 1, 1⟩
          else
            ⟨.error .DecoderBinaryPathInvalid, cache, 1, 1⟩
  | .typeId =>
    match cache path with
    | some _ => ⟨.ok path, cache, 0, 0⟩
    | none =>
      match env.fetchByTypeId decoder.hash with
      | .error e => ⟨.error e, cache, 1, 0⟩
      | .ok bytes =>
        if env.decoderWriteOk then
          ⟨.ok path, updateCache cache path bytes, 1, 0⟩
        else
          ⟨.error .DecoderBinaryPathInvalid, cache, 1, 0⟩

/-- The pattern argument passed to the executor: a JSON string is used
verbatim, any other JSON value is serialized (`pattern.to_string()`). -/
def patternString (env : Env) (pattern : Json) : Str :=
  match pattern with
  | .str s => s
  | p => env.toJsonString p

/-- `DOBDecoder::decode_dna` (`src/decoder.rs` lines 50-130): resolve the
decoder binary, then execute it on `(dna, pattern)` and interpret the
executor's exit code and output lines. -/
def decode_dna (env : Env) (cache : DecoderCache) (dna : Str)
    (dob_metadata : ClusterDescriptionField) : ResolveOutcome :=
  match resolveDecoder env cache dob_metadata.dob.decoder with
  | ⟨.error e, cache, fetches, verifies⟩ => ⟨.error e, cache, fetches, verifies⟩
  | ⟨.ok decoder_path, cache, fetches, verifies⟩ =>
    let pattern := patternString env dob_metadata.dob.pattern
    match env.executeRiscv decoder_path dna pattern with
    | none => ⟨.error .DecoderExecutionError, cache, fetches, verifies⟩
    | some (exit_code, outputs) =>
      if exit_code ≠ 0 then
        ⟨.error .DecoderExecutionInternalError, cache, fetches, verifies⟩
      else
        match outputs.head? with
        | none => ⟨.error .DecoderOutputInvalid, cache, fetches, verifies⟩
        | some first => ⟨.ok first, cache, fetches, verifies⟩

/-- Split a string at every newline character, as Rust's `split('\n')`
iterator does: `n` newlines yield `n + 1` pieces. -/
def splitOnNl : Str → List Str
  | [] => [[]]
  | c :: rest =>
    if c = '\n' then [] :: splitOnNl rest
    else
      match splitOnNl rest with
      | [] => [[c]]
      | piece :: pieces => (c :: piece) :: pieces

/-- `read_dob_from_cache` (`src/server.rs` lines 131-142): read the cache
file (absent ⇒ `DOBRenderCacheNotFound`), take the first two
newline-separated lines (fewer ⇒ `DOBRenderCacheModified`), parse line 2 as
JSON (failure ⇒ `DOBRenderCacheModified`). -/
def read_dob_from_cache (env : Env) (store : RenderStore) (cache_path : Str) :
    Except Error (Str × Json) :=
  match store cache_path with
  | none => .error .DOBRenderCacheNotFound
  | some file_content =>
    match splitOnNl file_content with
    | result :: content :: _ =>
      match env.parseStr content with
      | some json => .ok (result, json)
      | none => .error .DOBRenderCacheModified
    | _ => .error .DOBRenderCacheModified

/-- `write_dob_to_cache` (`src/server.rs` lines 164-174): serialize the DOB
content to JSON and write `render_result ++ "\n" ++ json` to the cache file;
a filesystem write failure is `DOBRenderCacheNotFound`. -/
def write_dob_to_cache (env : Env) (render_result : Str) (dob_content : Json)
    (store : RenderStore) (cache_path : Str) : Except Error RenderStore :=
  if env.renderWriteOk then
    .ok (updateStore store cache_path (render_result ++ '\n' :: env.toJsonString dob_content))
  else
    .error .DOBRenderCacheNotFound

/-- `ServerDecodeResult` from `src/server.rs`. -/
structure ServerDecodeResult where
  render_output : Json
  dob_content : Json

/-- Outcome of `decode_dob`: the Rust function can panic (the `unwrap` on
parsing the render output), return `Err`, or return the decode result. -/
inductive DobOutcome where
  | panicked
  | errored (e : Error)
  | ok (result : ServerDecodeResult)

/-- The state after a `decode_dob` call: its outcome plus both caches. -/
structure DobStep where
  outcome : DobOutcome
  decoderCache : DecoderCache
  renderStore : RenderStore

/-- The render-cache file name `{hex(spore_id)}.dob`. -/
def renderCacheKey (spore_id : Bytes) : Str :=
  hexEncode spore_id ++ (".dob".toList)

/-- `decode_dob` (`src/server.rs` lines 69-117): strip `0x`, hex-decode the
id (failure ⇒ `HexedSporeIdParseError`), check the 32-byte length (failure ⇒
`SporeIdLengthInvalid`), serve from the render cache if the file exists,
otherwise run the full pipeline and write through; finally parse the render
output as JSON with `unwrap` — a parse failure is a panic. -/
def decode_dob (env : Env) (decoderCache : DecoderCache) (store : RenderStore)
    (hexed_spore_id : Str) : DobStep :=
  match hexDecode (strip0x hexed_spore_id) with
  | none => ⟨.errored .HexedSporeIdParseError, decoderCache, store⟩
  | some spore_id =>
    if spore_id.length = 32 then
      let cache_path := renderCacheKey spore_id
      let step : Except Error (Str × Json) × DecoderCache × RenderStore :=
        if (store cache_path).isSome then
          (read_dob_from_cache env store cache_path, decoderCache, store)
        else
          match env.fetchIngredients spore_id with
          | .error e => (.error e, decoderCache, store)
          | .ok ((content, dna), metadata) =>
            match decode_dna env decoderCache dna metadata with
            | ⟨.error e, decoderCache, _, _⟩ => (.error e, decoderCache, store)
            | ⟨.ok render_output, decoderCache, _, _⟩ =>
              match write_dob_to_cache env render_output content store cache_path with
              | .error e => (.error e, decoderCache, store)
              | .ok store => (.ok (render_output, content), decoderCache, store)
      match step with
      | (.error e, decoderCache, store) => ⟨.errored e, decoderCache, store⟩
      | (.ok (render_output, dob_content), decoderCache, store) =>
        match env.parseStr render_output with
        | none => ⟨.panicked, decoderCache, store⟩
        | some parsed => ⟨.ok ⟨parsed, dob_content⟩, decoderCache, store⟩
    else
      ⟨.errored .SporeIdLengthInvalid, decoderCache, store⟩

/-- `batch_decode_dob` (`src/server.rs` lines 119-128): one `decode_dob`
future per input id, collected by `join_all` in input order.  All futures are
created against the same initial cache state; concurrency is not modelled
beyond that. -/
def batch_decode_dob (env : Env) (decoderCache : DecoderCache) (store : RenderStore)
    (hexed_spore_ids : List Str) : List DobOutcome :=
  hexed_spore_ids.map fun id => (decode_dob env decoderCache store id).outcome

/-- Concrete serde_json stand-in used by witnesses: parses anything to the
JSON string `"x"`. -/
def parseConstStr : Bytes → Option Json :=
  fun _ => some (.str ("x".toList))

/-- C2: for every byte sequence whose first byte is `0x00`,
`decode_spore_data` succeeds, the DNA is the hex encoding of the remaining
bytes, and the content is that same hex string as a JSON string value. -/
theorem spore_data_zero_first_byte_hex_dna
    (parse : Bytes → Option Json) (rest : Bytes) :
    decode_spore_data parse ((0 : UInt8) :: rest) =
      .ok (.str (hexEncode rest)) (hexEncode rest) := by
  simp [decode_spore_data]

/-- C9: `decode_spore_data` is not total: on the empty payload it panics
(`spore_data[0]` is an unchecked index), and on any non-empty payload it
never panics. -/
theorem decode_spore_data_empty_panics (parse : Bytes → Option Json) :
    decode_spore_data parse [] = .panicked ∧
      ∀ (b : UInt8) (rest : Bytes), decode_spore_data parse (b :: rest) ≠ .panicked := by
  refine ⟨rfl, fun b rest h => ?_⟩
  simp only [decode_spore_data] at h
  split at h
  · exact SporeDecodeResult.noConfusion h
  · split at h
    · exact SporeDecodeResult.noConfusion h
    · split at h <;> exact SporeDecodeResult.noConfusion h

/-- Witness for C9: the empty payload panics under a concrete parser. -/
theorem decode_spore_data_empty_panics_witness :
    decode_spore_data parseConstStr [] = .panicked :=
  (decode_spore_data_empty_panics parseConstStr).1

/-- C3: for payloads not starting with `0x00`, the DNA is extracted by JSON
shape: a string is used directly, an array uses its first element (which must
exist and be a string), an object uses the value at key `"dna"` (which must
exist and be a string); unparseable bytes, other shapes, and non-string
resolved values fail with `DOBContentUnexpected`; on success the content is
the full parsed value. -/
theorem spore_data_json_dna_extraction
    (parse : Bytes → Option Json) (b : UInt8) (rest : Bytes) (hb : b ≠ 0) :
    (∀ s, parse (b :: rest) = some (.str s) →
      decode_spore_data parse (b :: rest) = .ok (.str s) s) ∧
    (parse (b :: rest) = some (.arr []) →
      decode_spore_data parse (b :: rest) = .errored .DOBContentUnexpected) ∧
    (∀ s tail, parse (b :: rest) = some (.arr (.str s :: tail)) →
      decode_spore_data parse (b :: rest) = .ok (.arr (.str s :: tail)) s) ∧
    (∀ x tail, parse (b :: rest) = some (.arr (x :: tail)) → (∀ s, x ≠ .str s) →
      decode_spore_data parse (b :: rest) = .errored .DOBContentUnexpected) ∧
    (∀ fields, parse (b :: rest) = some (.obj fields) →
      jsonLookup fields ("dna".toList) = none →
      decode_spore_data parse (b :: rest) = .errored .DOBContentUnexpected) ∧
    (∀ fields s, parse (b :: rest) = some (.obj fields) →
      jsonLookup fields ("dna".toList) = some (.str s) →
      decode_spore_data parse (b :: rest) = .ok (.obj fields) s) ∧
    (∀ fields v, parse (b :: rest) = some (.obj fields) →
      jsonLookup fields ("dna".toList) = some v → (∀ s, v ≠ .str s) →
      decode_spore_data parse (b :: rest) = .errored .DOBContentUnexpected) ∧
    (parse (b :: rest) = some .null →
      decode_spore_data parse (b :: rest) = .errored .DOBContentUnexpected) ∧
    (∀ bv, parse (b :: rest) = some (.bool bv) →
      decode_spore_data parse (b :: rest) = .errored .DOBContentUnexpected) ∧
    (∀ n, parse (b :: rest) = some (.num n) →
      decode_spore_data parse (b :: rest) = .errored .DOBContentUnexpected) ∧
    (parse (b :: rest) = none →
      decode_spore_data parse (b :: rest) = .errored .DOBContentUnexpected) := by
  refine ⟨?_, ?_, ?_, ?_, ?_, ?_, ?_, ?_, ?_, ?_, ?_⟩
  · intro s hp
    simp [decode_spore_data, hb, hp]
  · intro hp
    simp [decode_spore_data, hb, hp]
  · intro s tail hp
    simp [decode_spore_data, hb, hp]
  · intro x tail hp hx
    cases x with
    | str s => exact absurd rfl (hx s)
    | null => simp [decode_spore_data, hb, hp]
    | bool bv => simp [decode_spore_data, hb, hp]
    | num n => simp [decode_spore_data, hb, hp]
    | arr elems => simp [decode_spore_data, hb, hp]
    | obj fields => simp [decode_spore_data, hb, hp]
  · intro fields hp hl
    rw [show ("dna".toList) = ['d', 'n', 'a'] from rfl] at hl
    simp [decode_spore_data, hb, hp, hl]
  · intro fields s hp hl
    rw [show ("dna".toList) = ['d', 'n', 'a'] from rfl] at hl
    simp [decode_spore_data, hb, hp, hl]
  · intro fields v hp hl hv
    rw [show ("dna".toList) = ['d', 'n', 'a'] from rfl] at hl
    cases v with
    | str s => exact absurd rfl (hv s)
    | null => simp [decode_spore_data, hb, hp, hl]
    | bool bv => simp [decode_spore_data, hb, hp, hl]
    | num n => simp [decode_spore_data, hb, hp, hl]
    | arr elems => simp [decode_spore_data, hb, hp, hl]
    | obj fields2 => simp [decode_spore_data, hb, hp, hl]
  · intro hp
    simp [decode_spore_data, hb, hp]
  · intro bv hp
    simp [decode_spore_data, hb, hp]
  · intro n hp
    simp [decode_spore_data, hb, hp]
  · intro hp
    simp [decode_spore_data, hb, hp]

/-- Witness for C3: the string-shaped case evaluated at a concrete payload
and parser. -/
theorem spore_data_json_dna_extraction_witness :
    decode_spore_data parseConstStr [(1 : UInt8)] = .ok (.str ("x".toList)) ("x".toList) :=
  (spore_data_json_dna_extraction parseConstStr 1 [] (by decide)).1 ("x".toList) rfl

theorem splitOnNl_ne_nil (s : Str) : splitOnNl s ≠ [] := by
  induction s with
  | nil => simp [splitOnNl]
  | cons c rest ih =>
    simp only [splitOnNl]
    split
    · simp
    · cases h : splitOnNl rest with
      | nil => simp
      | cons piece pieces => simp

theorem splitOnNl_no_nl {s : Str} (h : '\n' ∉ s) : splitOnNl s = [s] := by
  induction s with
  | nil => rfl
  | cons c rest ih =>
    have hc : ¬c = '\n' := fun e => h (by simp [e])
    have hr : '\n' ∉ rest := fun m => h (List.mem_cons_of_mem _ m)
    simp only [splitOnNl, if_neg hc, ih hr]

theorem splitOnNl_append {r s : Str} (h : '\n' ∉ r) :
    splitOnNl (r ++ '\n' :: s) = r :: splitOnNl s := by
  induction r with
  | nil => simp [splitOnNl]
  | cons c rest ih =>
    have hc : ¬c = '\n' := fun e => h (by simp [e])
    have hr : '\n' ∉ rest := fun m => h (List.mem_cons_of_mem _ m)
    simp only [List.cons_append, splitOnNl, List.append_eq, if_neg hc, ih hr]

/-- C4: render-cache round trip — writing a newline-free render string `r`
and a JSON content `c` and reading the same object id back returns `(r, c)`
unchanged.  The serde_json serializer/parser pair is external; its contract
(parsing its own output returns the value, and its output never contains a
raw newline) enters as hypotheses. -/
theorem render_cache_round_trip (env : Env) (store store2 : RenderStore)
    (spore_id : Bytes) (r : Str) (c : Json)
    (hr : '\n' ∉ r)
    (hser : '\n' ∉ env.toJsonString c)
    (hparse : env.parseStr (env.toJsonString c) = some c)
    (hwrite : write_dob_to_cache env r c store (renderCacheKey spore_id) = .ok store2) :
    read_dob_from_cache env store2 (renderCacheKey spore_id) = .ok (r, c) := by
  unfold write_dob_to_cache at hwrite
  split at hwrite
  · cases hwrite
    unfold read_dob_from_cache updateStore
    rw [if_pos rfl]
    simp only [splitOnNl_append hr, splitOnNl_no_nl hser, hparse]
  · exact Except.noConfusion hwrite

/-- Witness for C4: a concrete round trip through the render cache. -/
theorem render_cache_round_trip_witness :
    read_dob_from_cache
      { deployments := [], fetchDirectly := fun _ _ => .error .FetchTransactionError,
        fetchByTypeId := fun _ => .error .DecoderIdNotFound, blake2b256 := fun _ => [],
        executeRiscv := fun _ _ _ => none,
        parseStr := fun s => if s = ("null".toList) then some .null else none,
        toJsonString := fun _ => ("null".toList),
        fetchIngredients := fun _ => .error .SporeIdNotFound,
        decoderWriteOk := true, renderWriteOk := true }
      (updateStore (fun _ => none) (renderCacheKey [])
        (('r' :: '\n' :: "null".toList)))
      (renderCacheKey []) = .ok (['r'], .null) := by
  refine render_cache_round_trip _ (fun _ => none) _ [] ['r'] .null
    (by decide) (by decide) (by rfl) ?_
  rfl

/-- C5: a readable render-cache entry with fewer than two newline-separated
lines, or whose second line does not parse as JSON, yields
`DOBRenderCacheModified`, not a cache miss. -/
theorem render_cache_corruption_surfaced (env : Env) (store : RenderStore)
    (cache_path content : Str)
    (hread : store cache_path = some content)
    (hbad : (splitOnNl content).length < 2 ∨
      ∃ l1 l2 rest, splitOnNl content = l1 :: l2 :: rest ∧ env.parseStr l2 = none) :
    read_dob_from_cache env store cache_path = .error .DOBRenderCacheModified := by
  unfold read_dob_from_cache
  rw [hread]
  rcases hbad with hlen | ⟨l1, l2, rest, hsplit, hparse⟩
  · cases h : splitOnNl content with
    | nil => exact absurd h (splitOnNl_ne_nil content)
    | cons piece pieces =>
      cases pieces with
      | nil => simp [h]
      | cons p2 ps => rw [h] at hlen; simp only [List.length_cons] at hlen; omega
  · simp [hsplit, hparse]

/-- Witness for C5: a one-line cache entry surfaces the corruption error. -/
theorem render_cache_corruption_surfaced_witness :
    read_dob_from_cache
      { deployments := [], fetchDirectly := fun _ _ => .error .FetchTransactionError,
        fetchByTypeId := fun _ => .error .DecoderIdNotFound, blake2b256 := fun _ => [],
        executeRiscv := fun _ _ _ => none, parseStr := fun _ => some .null,
        toJsonString := fun _ => [], fetchIngredients := fun _ => .error .SporeIdNotFound,
        decoderWriteOk := true, renderWriteOk := true }
      (fun _ => some (['a', 'b'])) ([]) = .error .DOBRenderCacheModified := by
  refine render_cache_corruption_surfaced _ _ ([]) (['a', 'b']) rfl (Or.inl ?_)
  decide

/-- A cache hit returns the derived path immediately, unchanged cache, no
ledger fetch, no digest verification. -/
theorem resolve_cache_hit (env : Env) (cache : DecoderCache)
    (decoder : DOBDecoderFormat) (bin : Bytes)
    (hc : cache (decoderCacheKey decoder) = some bin) :
    resolveDecoder env cache decoder = ⟨.ok (decoderCacheKey decoder), cache, 0, 0⟩ := by
  obtain ⟨loc, hash⟩ := decoder
  cases loc <;> simp only [resolveDecoder, hc]

/-- A successful resolution returns the derived cache key as the path and
leaves a binary cached under that key. -/
theorem resolve_ok_key_cached (env : Env) (cache : DecoderCache)
    (decoder : DOBDecoderFormat) (p : Str) (cache2 : DecoderCache) (f v : Nat)
    (hres : resolveDecoder env cache decoder = ⟨.ok p, cache2, f, v⟩) :
    p = decoderCacheKey decoder ∧ ∃ bin, cache2 (decoderCacheKey decoder) = some bin := by
  obtain ⟨loc, hash⟩ := decoder
  cases loc <;>
    · simp only [resolveDecoder] at hres
      split at hres
      · simp only [ResolveOutcome.mk.injEq, Except.ok.injEq] at hres
        obtain ⟨hp, hc2, -, -⟩ := hres
        subst hp; subst hc2
        exact ⟨rfl, _, by assumption⟩
      · repeat' split at hres
        all_goals simp only [ResolveOutcome.mk.injEq, Except.ok.injEq,
          reduceCtorEq, false_and] at hres
        all_goals
          obtain ⟨hp, hc2, -, -⟩ := hres
          subst hp; subst hc2
          refine ⟨rfl, ?_⟩
          simp [updateCache]

/-- C1: a CodeHash decoder with no cached binary whose fetched bytes hash to
something other than the declared hash makes `decode_dna` fail with
`DecoderBinaryHashInvalid` and leaves no decoder-cache entry under that
key. -/
theorem codehash_digest_mismatch_fails_and_never_cached
    (env : Env) (cache : DecoderCache) (dna desc : Str) (ver : Option Nat)
    (hash : Hash256) (pat : Json) (deployment : DecoderDeployment) (bytes : Bytes)
    (hcache : cache (decoderCacheKey ⟨.codeHash, hash⟩) = none)
    (hfind : env.deployments.find? (fun d => decide (d.code_hash = hash)) = some deployment)
    (hfetch : env.fetchDirectly deployment.tx_hash deployment.out_index = .ok bytes)
    (hdigest : env.blake2b256 bytes ≠ hash) :
    (decode_dna env cache dna ⟨desc, ⟨ver, ⟨.codeHash, hash⟩, pat⟩⟩).result =
        .error .DecoderBinaryHashInvalid ∧
      (decode_dna env cache dna ⟨desc, ⟨ver, ⟨.codeHash, hash⟩, pat⟩⟩).cache
        (decoderCacheKey ⟨.codeHash, hash⟩) = none := by
  have hres : resolveDecoder env cache ⟨.codeHash, hash⟩ =
      ⟨.error .DecoderBinaryHashInvalid, cache, 1, 1⟩ := by
    simp only [resolveDecoder, hcache, hfind, hfetch]
    simp [hdigest]
  refine ⟨?_, ?_⟩ <;> simp only [decode_dna, hres, hcache]

/-- Witness environment for C1: one deployment for code hash `[0]`, a fetch
returning `[1]`, and a blake2b digest that never matches. -/
def envC1 : Env where
  deployments := [⟨[(0 : UInt8)], [], 0⟩]
  fetchDirectly := fun _ _ => .ok [1]
  fetchByTypeId := fun _ => .error .DecoderIdNotFound
  blake2b256 := fun _ => []
  executeRiscv := fun _ _ _ => none
  parseStr := fun _ => none
  toJsonString := fun _ => []
  fetchIngredients := fun _ => .error .SporeIdNotFound
  decoderWriteOk := true
  renderWriteOk := true

/-- Witness for C1 at a concrete environment and metadata. -/
theorem codehash_digest_mismatch_witness :
    (decode_dna envC1 (fun _ => none) [] ⟨[], ⟨none, ⟨.codeHash, [0]⟩, .null⟩⟩).result =
      .error .DecoderBinaryHashInvalid :=
  (codehash_digest_mismatch_fails_and_never_cached envC1 (fun _ => none) [] [] none
    [0] .null ⟨[0], [], 0⟩ [1] rfl rfl rfl (by decide)).1

/-- C6: given a resolved decoder path, `decode_dna` maps executor outcomes to
results: invocation failure ⇒ `DecoderExecutionError`; non-zero exit ⇒
`DecoderExecutionInternalError`; zero exit with no output ⇒
`DecoderOutputInvalid`; otherwise the render result is exactly the first
output line. -/
theorem decode_dna_execution_outcomes
    (env : Env) (cache : DecoderCache) (dna : Str) (meta : ClusterDescriptionField)
    (p : Str) (cache2 : DecoderCache) (f v : Nat)
    (hres : resolveDecoder env cache meta.dob.decoder = ⟨.ok p, cache2, f, v⟩) :
    (env.executeRiscv p dna (patternString env meta.dob.pattern) = none →
      (decode_dna env cache dna meta).result = .error .DecoderExecutionError) ∧
    (∀ exit_code outputs,
      env.executeRiscv p dna (patternString env meta.dob.pattern) = some (exit_code, outputs) →
      exit_code ≠ 0 →
      (decode_dna env cache dna meta).result = .error .DecoderExecutionInternalError) ∧
    (env.executeRiscv p dna (patternString env meta.dob.pattern) = some (0, []) →
      (decode_dna env cache dna meta).result = .error .DecoderOutputInvalid) ∧
    (∀ first others,
      env.executeRiscv p dna (patternString env meta.dob.pattern) = some (0, first :: others) →
      (decode_dna env cache dna meta).result = .ok first) := by
  refine ⟨fun hx => ?_, fun exit_code outputs hx hne => ?_, fun hx => ?_,
    fun first others hx => ?_⟩
  · simp only [decode_dna, hres, hx]
  · simp only [decode_dna, hres, hx]
    simp [hne]
  · simp only [decode_dna, hres, hx]
    simp
  · simp only [decode_dna, hres, hx]
    simp

/-- Witness environment for C6: the executor exits 0 with one output line. -/
def envC6 : Env where
  deployments := []
  fetchDirectly := fun _ _ => .error .FetchTransactionError
  fetchByTypeId := fun _ => .error .DecoderIdNotFound
  blake2b256 := fun _ => []
  executeRiscv := fun _ _ _ => some (0, [['o']])
  parseStr := fun _ => none
  toJsonString := fun _ => []
  fetchIngredients := fun _ => .error .SporeIdNotFound
  decoderWriteOk := true
  renderWriteOk := true

/-- Witness for C6: with a cached decoder and a zero-exit executor producing
one line, `decode_dna` returns that line. -/
theorem decode_dna_execution_outcomes_witness :
    (decode_dna envC6 (fun _ => some []) [] ⟨[], ⟨none, ⟨.codeHash, []⟩, .null⟩⟩).result =
      .ok ['o'] :=
  (decode_dna_execution_outcomes envC6 (fun _ => some []) []
    ⟨[], ⟨none, ⟨.codeHash, []⟩, .null⟩⟩ (decoderCacheKey ⟨.codeHash, []⟩)
    (fun _ => some []) 0 0 rfl).2.2.2 ['o'] [] rfl

/-- C7: decoder-binary caching is idempotent — a cache hit returns the
derived path with no ledger fetch, no digest re-verification and an unchanged
cache; after any successful resolution, resolving the same `DecoderRef` again
returns the same path over the same cache with no further fetch; and
`decode_dna` on a cached decoder performs no fetch and leaves the
decoder-binary cache untouched. -/
theorem decoder_cache_hit_idempotent (env : Env) (cache : DecoderCache) :
    (∀ (decoder : DOBDecoderFormat) (bin : Bytes),
      cache (decoderCacheKey decoder) = some bin →
      resolveDecoder env cache decoder = ⟨.ok (decoderCacheKey decoder), cache, 0, 0⟩) ∧
    (∀ (decoder : DOBDecoderFormat) (p : Str) (cache2 : DecoderCache) (f v : Nat),
      resolveDecoder env cache decoder = ⟨.ok p, cache2, f, v⟩ →
      resolveDecoder env cache2 decoder = ⟨.ok p, cache2, 0, 0⟩) ∧
    (∀ (dna : Str) (meta : ClusterDescriptionField) (bin : Bytes),
      cache (decoderCacheKey meta.dob.decoder) = some bin →
      (decode_dna env cache dna meta).fetches = 0 ∧
        (decode_dna env cache dna meta).verifies = 0 ∧
        (decode_dna env cache dna meta).cache = cache) := by
  refine ⟨fun decoder bin hc => resolve_cache_hit env cache decoder bin hc,
    fun decoder p cache2 f v hres => ?_, fun dna meta bin hc => ?_⟩
  · obtain ⟨hp, bin, hbin⟩ := resolve_ok_key_cached env cache decoder p cache2 f v hres
    subst hp
    exact resolve_cache_hit env cache2 decoder bin hbin
  · have h := resolve_cache_hit env cache meta.dob.decoder bin hc
    obtain ⟨res, hres2⟩ : ∃ res, decode_dna env cache dna meta = ⟨res, cache, 0, 0⟩ := by
      simp only [decode_dna, h]
      split
      · exact ⟨_, rfl⟩
      · split
        · exact ⟨_, rfl⟩
        · split <;> exact ⟨_, rfl⟩
    rw [hres2]
    exact ⟨rfl, rfl, rfl⟩

/-- Witness for C7: a concrete cache hit on a TypeId decoder. -/
theorem decoder_cache_hit_idempotent_witness :
    resolveDecoder envC6 (fun _ => some [(7 : UInt8)]) ⟨.typeId, []⟩ =
      ⟨.ok (decoderCacheKey ⟨.typeId, []⟩), fun _ => some [(7 : UInt8)], 0, 0⟩ :=
  (decoder_cache_hit_idempotent envC6 (fun _ => some [(7 : UInt8)])).1
    ⟨.typeId, []⟩ [(7 : UInt8)] rfl

/-- C8: `batch_decode_dob` returns one result per input in input order, each
slot being exactly the `decode_dob` outcome for its own input; a bad-hex item
makes only its own slot `HexedSporeIdParseError` and no item's failure
affects any other slot. -/
theorem batch_decode_order_and_isolation (env : Env) (decoderCache : DecoderCache)
    (store : RenderStore) (ids : List Str) :
    (batch_decode_dob env decoderCache store ids).length = ids.length ∧
    (∀ k, k < ids.length →
      (batch_decode_dob env decoderCache store ids).getD k .panicked =
        (decode_dob env decoderCache store (ids.getD k [])).outcome) ∧
    (∀ k, k < ids.length → hexDecode (strip0x (ids.getD k [])) = none →
      (batch_decode_dob env decoderCache store ids).getD k .panicked =
        .errored .HexedSporeIdParseError) := by
  have hk : ∀ k, k < ids.length →
      (batch_decode_dob env decoderCache store ids).getD k .panicked =
        (decode_dob env decoderCache store (ids.getD k [])).outcome := by
    intro k hk
    simp only [batch_decode_dob, List.getD_eq_getElem?_getD, List.getElem?_map,
      List.getElem?_eq_getElem hk]
    simp
  refine ⟨by simp [batch_decode_dob], hk, fun k hklt hbad => ?_⟩
  rw [hk k hklt]
  rw [List.getD_eq_getElem?_getD] at hbad
  simp [decode_dob, hbad]

/-- Witness for C8: a single-item batch whose item is invalid hex fails in
its own slot with `HexedSporeIdParseError`. -/
theorem batch_decode_order_and_isolation_witness :
    (batch_decode_dob envC6 (fun _ => none) (fun _ => none) [['z', 'z']]).getD 0 .panicked =
      .errored .HexedSporeIdParseError :=
  (batch_decode_order_and_isolation envC6 (fun _ => none) (fun _ => none)
    [['z', 'z']]).2.2 0 (by decide) (by decide)

/-- C10: `decode_dob` parses the render output with an unconditional
`unwrap`: whether the render string comes from a well-formed render-cache
entry or from a fresh pipeline run, if it is not valid JSON the function
panics instead of returning a structured error. -/
theorem decode_dob_render_parse_panics (env : Env) (decoderCache : DecoderCache)
    (store : RenderStore) (id : Str) (spore_id : Bytes)
    (hhex : hexDecode (strip0x id) = some spore_id)
    (hlen : spore_id.length = 32) :
    (∀ r c,
      read_dob_from_cache env store (renderCacheKey spore_id) = .ok (r, c) →
      env.parseStr r = none →
      (decode_dob env decoderCache store id).outcome = .panicked) ∧
    (∀ content dna meta r cache2 f v,
      store (renderCacheKey spore_id) = none →
      env.fetchIngredients spore_id = .ok ((content, dna), meta) →
      decode_dna env decoderCache dna meta = ⟨.ok r, cache2, f, v⟩ →
      env.renderWriteOk = true →
      env.parseStr r = none →
      (decode_dob env decoderCache store id).outcome = .panicked) := by
  constructor
  · intro r c hread hparse
    have hsome : (store (renderCacheKey spore_id)).isSome = true := by
      cases hs : store (renderCacheKey spore_id) with
      | none =>
        unfold read_dob_from_cache at hread
        rw [hs] at hread
        exact Except.noConfusion hread
      | some content => rfl
    simp only [decode_dob, hhex, hlen, if_pos, hsome, if_true, hread, hparse]
  · intro content dna meta r cache2 f v hmiss hing hdna hwrite hparse
    have hnone : (store (renderCacheKey spore_id)).isSome = false := by
      rw [hmiss]; rfl
    simp only [decode_dob, hhex, hlen, if_pos, hnone, Bool.false_eq_true, if_false,
      hing, hdna, write_dob_to_cache, hwrite, if_true, hparse]

/-- Witness environment for C10: the parser accepts exactly the string
`null`. -/
def envC10 : Env where
  deployments := []
  fetchDirectly := fun _ _ => .error .FetchTransactionError
  fetchByTypeId := fun _ => .error .DecoderIdNotFound
  blake2b256 := fun _ => []
  executeRiscv := fun _ _ _ => none
  parseStr := fun s => if s = ("null".toList) then some .null else none
  toJsonString := fun _ => ("null".toList)
  fetchIngredients := fun _ => .error .SporeIdNotFound
  decoderWriteOk := true
  renderWriteOk := true

/-- Witness render store for C10: every file reads `a\nnull`, whose first
line `a` is not valid JSON. -/
def storeC10 : RenderStore :=
  fun _ => some ('a' :: '\n' :: "null".toList)

/-- Witness for C10: a readable, well-formed cache entry whose first line is
not JSON makes `decode_dob` panic. -/
theorem decode_dob_render_parse_panics_witness :
    (decode_dob envC10 (fun _ => none) storeC10 (List.replicate 64 '0')).outcome =
      .panicked :=
  (decode_dob_render_parse_panics envC10 (fun _ => none) storeC10
    (List.replicate 64 '0') (List.replicate 32 (0 : UInt8)) (by decide) (by decide)).1
    ['a'] .null rfl rfl

end DobDecoder
